import Mathlib

/-
Verification of the self-calibrating-oracle repository: a shallow embedding
of src/simulator.py (the physics world) and src/engine.py (the bisection
calibration engine), with theorems settling the specification claims.

Real numbers of the source (Python floats) are modelled as rationals, so
every definition is executable and all arithmetic is exact.
-/

/-- Python's built-in abs on a number, as the source uses it in
    error = abs(trial_result_x - ground_truth_x_pos). -/
def absQ (a : ℚ) : ℚ := if a < 0 then -a else a

theorem absQ_eq_abs (a : ℚ) : absQ a = |a| := by
  unfold absQ
  rcases lt_or_le a 0 with h | h
  · rw [if_pos h, abs_of_neg h]
  · rw [if_neg (not_lt.mpr h), abs_of_nonneg h]

theorem absQ_nonneg (a : ℚ) : 0 ≤ absQ a := by
  rw [absQ_eq_abs]; exact abs_nonneg a

/-- Modelled from the spec: the state of the single dynamic pymunk body
    (the pymunk library is not part of the repository).  Per the data model
    a body carries a position (x, y), a linear velocity, its mass, and the
    box extent that determines where it rests on the floor.  Rotation is
    not part of the observable behaviour in the spec and is not modelled. -/
structure Body where
  x : ℚ
  y : ℚ
  vx : ℚ
  vy : ℚ
  mass : ℚ
  half_height : ℚ

/-- One simulation world, from src/simulator.py.  The static floor created
    by _add_static_floor is a segment at height 10 with radius 5 (so its
    top surface sits at height 15) and friction 1.0; both values are fixed
    at construction and never change. -/
structure Simulator where
  friction : ℚ
  gravity : ℚ × ℚ
  floor_friction : ℚ
  floor_top : ℚ
  object_body : Option Body

/-- Simulator.__init__: a fresh space with the given friction and gravity,
    the static floor added, and no dynamic body yet. -/
def Simulator.init (friction : ℚ) (gravity : ℚ × ℚ) : Simulator :=
  { friction := friction, gravity := gravity, floor_friction := 1,
    floor_top := 15, object_body := none }

/-- Simulator.add_dynamic_box: installs the single tracked dynamic box at
    the given position, at rest, with the world's friction on its shape. -/
def Simulator.add_dynamic_box (w : Simulator) (position : ℚ × ℚ)
    (size : ℚ × ℚ) (mass : ℚ) : Simulator :=
  let body : Body :=
    { x := position.1, y := position.2, vx := 0, vy := 0,
      mass := mass, half_height := size.2 / 2 }
  { w with object_body := some body }

/-- Simulator.apply_impulse: a no-op when no body exists; otherwise
    (modelled from the spec: pymunk's apply_impulse_at_local_point is not
    part of the repository) an instantaneous change of linear momentum,
    so the velocity changes by impulse / mass. -/
def Simulator.apply_impulse (w : Simulator) (impulse : ℚ × ℚ) : Simulator :=
  match w.object_body with
  | none => w
  | some b =>
    let b2 : Body :=
      { b with vx := b.vx + impulse.1 / b.mass, vy := b.vy + impulse.2 / b.mass }
    { w with object_body := some b2 }

/-- Modelled from the spec: pymunk's Space.step (the physics library is not
    part of the repository).  One fixed time step of the semi-implicit
    scheme of spec section 4.1: (1) gravity is integrated into velocity,
    (2) floor contact is resolved with zero penetration, the normal impulse
    N being what stops the body at the floor surface, and a friction
    impulse opposing the tangential velocity, bounded by the Coulomb limit
    mu * N where mu combines the two surface coefficients (their product),
    (3) velocity is integrated into position.  With no body the world state
    does not change observably. -/
def stepBody (friction floor_friction floor_top : ℚ) (gravity : ℚ × ℚ)
    (dt : ℚ) (b : Body) : Body :=
  let vx1 := b.vx + gravity.1 * dt
  let vy1 := b.vy + gravity.2 * dt
  let restY := floor_top + b.half_height
  if b.y + vy1 * dt ≤ restY then
    let vy2 := (restY - b.y) / dt
    let bigN := b.mass * (vy2 - vy1)
    let mu := friction * floor_friction
    let j := min (mu * bigN) (b.mass * absQ vx1)
    let vx2 := if 0 ≤ vx1 then vx1 - j / b.mass else vx1 + j / b.mass
    { b with x := b.x + vx2 * dt, y := b.y + vy2 * dt, vx := vx2, vy := vy2 }
  else
    { b with x := b.x + vx1 * dt, y := b.y + vy1 * dt, vx := vx1, vy := vy1 }

def Simulator.step (w : Simulator) (dt : ℚ) : Simulator :=
  match w.object_body with
  | none => w
  | some b =>
    let b2 := stepBody w.friction w.floor_friction w.floor_top w.gravity dt b
    { w with object_body := some b2 }

/-- Simulator.get_object_state: the (x, y) position of the tracked body, or
    none when no body exists.  It reads the state and mutates nothing. -/
def Simulator.get_object_state (w : Simulator) : Option (ℚ × ℚ) :=
  match w.object_body with
  | none => none
  | some b => some (b.x, b.y)

/-- One entry of the calibration history dictionary
    picture: iteration number (1-based), the friction guess tried, and the
    absolute positional error it produced. -/
structure TrialRecord where
  iteration : ℕ
  guess : ℚ
  error : ℚ

/-- CalibrationEngine state, from src/engine.py. -/
structure CalibrationEngine where
  simulation_steps : ℕ
  impulse : ℚ × ℚ
  calibration_history : List TrialRecord

/-- CalibrationEngine.__init__: stores the configuration and starts with an
    empty calibration history. -/
def CalibrationEngine.init (simulation_steps : ℕ)
    (impulse_to_apply : ℚ × ℚ) : CalibrationEngine :=
  { simulation_steps := simulation_steps, impulse := impulse_to_apply,
    calibration_history := [] }

/-- CalibrationEngine._run_trial: a brand-new Simulator with the guessed
    friction (default gravity (0, -900)), one dynamic box at the default
    position (0, 50) with size (50, 50) and mass 10, the configured impulse
    applied once, simulation_steps steps of the default dt = 1/60, and the
    final x coordinate of the body (final_state[0] in the source; the
    unreachable no-body case is mapped to 0). -/
def CalibrationEngine.run_trial (e : CalibrationEngine)
    (friction_guess : ℚ) : ℚ :=
  let trial_sim := Simulator.init friction_guess (0, -900)
  let trial_sim := trial_sim.add_dynamic_box (0, 50) (50, 50) 10
  let trial_sim := trial_sim.apply_impulse e.impulse
  let trial_sim := (fun w => Simulator.step w (1 / 60))^[e.simulation_steps] trial_sim
  match trial_sim.get_object_state with
  | some final_state => final_state.1
  | none => 0

/-- The local state of the calibrate loop in src/engine.py: the search
    bounds, best_guess (initially the sentinel -1), the last value bound to
    the Python variable named error (none while that variable is still
    unassigned, i.e. before any iteration has run), the history list, and
    whether the loop has exited via break. -/
structure LoopState where
  low : ℚ
  high : ℚ
  best : ℚ
  lastError : Option ℚ
  history : List TrialRecord
  done : Bool

/-- One iteration of the calibrate loop body (loop index i is 0-based, the
    recorded iteration number is i + 1): guess the midpoint, run the trial,
    compute the error, append the history record, then either stop within
    tolerance or narrow the search interval and update best_guess. -/
def calibIter (trial : ℚ → ℚ) (target tol : ℚ) (i : ℕ) (s : LoopState) :
    LoopState :=
  let guess := (s.low + s.high) / 2
  let obs := trial guess
  let err := absQ (obs - target)
  let hist := s.history ++ [⟨i + 1, guess, err⟩]
  if err ≤ tol then
    { s with best := guess, lastError := some err, history := hist, done := true }
  else if target < obs then
    { s with low := guess, best := guess, lastError := some err, history := hist }
  else
    { s with high := guess, best := guess, lastError := some err, history := hist }

/-- The for i in range(max_iterations) loop: the first argument is the
    remaining iteration budget, the second the current 0-based index; a
    state marked done (the Python break) leaves the loop. -/
def calibLoop (trial : ℚ → ℚ) (target tol : ℚ) :
    ℕ → ℕ → LoopState → LoopState
  | 0, _, s => s
  | n + 1, i, s =>
    if s.done then s
    else calibLoop trial target tol n (i + 1) (calibIter trial target tol i s)

/-- The loop state right after the initializations low_bound = 0.0,
    high_bound = 1.0, best_guess = -1 (with the engine's current history
    list, to which the loop appends). -/
def initState (history : List TrialRecord) : LoopState :=
  { low := 0, high := 1, best := -1, lastError := none, history := history,
    done := false }

/-- CalibrationEngine.calibrate.  After the loop the source evaluates
    error > tolerance; when no iteration ever ran, the Python variable
    named error is unbound there and a NameError propagates to the caller,
    modelled as the Except.error outcome.  Otherwise best_guess is
    returned.  The updated engine (its grown history) is returned
    alongside. -/
def CalibrationEngine.calibrate (e : CalibrationEngine)
    (ground_truth_x_pos : ℚ) (max_iterations : ℕ) (tolerance : ℚ) :
    CalibrationEngine × Except Unit ℚ :=
  let s := calibLoop e.run_trial ground_truth_x_pos tolerance
    max_iterations 0 (initState e.calibration_history)
  match s.lastError with
  | none => ({ e with calibration_history := s.history }, Except.error ())
  | some _ => ({ e with calibration_history := s.history }, Except.ok s.best)

/-- A done state leaves the loop unchanged (the Python break has fired). -/
theorem calibLoop_done_eq (trial : ℚ → ℚ) (target tol : ℚ) (n i : ℕ)
    (s : LoopState) (h : s.done = true) :
    calibLoop trial target tol n i s = s := by
  cases n with
  | zero => rfl
  | succ n => rw [calibLoop, if_pos h]

/-- Unfolding one executed iteration of the loop. -/
theorem calibLoop_succ_of_not_done (trial : ℚ → ℚ) (target tol : ℚ)
    (n i : ℕ) (s : LoopState) (h : s.done = false) :
    calibLoop trial target tol (n + 1) i s =
      calibLoop trial target tol n (i + 1) (calibIter trial target tol i s) := by
  rw [calibLoop, if_neg (by simp [h])]

theorem calibIter_history (trial : ℚ → ℚ) (target tol : ℚ) (i : ℕ)
    (s : LoopState) :
    (calibIter trial target tol i s).history = s.history ++
      [⟨i + 1, (s.low + s.high) / 2,
        absQ (trial ((s.low + s.high) / 2) - target)⟩] := by
  simp only [calibIter]
  split_ifs <;> rfl

theorem calibIter_best (trial : ℚ → ℚ) (target tol : ℚ) (i : ℕ)
    (s : LoopState) :
    (calibIter trial target tol i s).best = (s.low + s.high) / 2 := by
  simp only [calibIter]
  split_ifs <;> rfl

theorem calibIter_lastError (trial : ℚ → ℚ) (target tol : ℚ) (i : ℕ)
    (s : LoopState) :
    (calibIter trial target tol i s).lastError =
      some (absQ (trial ((s.low + s.high) / 2) - target)) := by
  simp only [calibIter]
  split_ifs <;> rfl

theorem calibIter_done (trial : ℚ → ℚ) (target tol : ℚ) (i : ℕ)
    (s : LoopState) :
    (calibIter trial target tol i s).done =
      if absQ (trial ((s.low + s.high) / 2) - target) ≤ tol then true
      else s.done := by
  simp only [calibIter]
  split_ifs <;> rfl

theorem calibIter_low (trial : ℚ → ℚ) (target tol : ℚ) (i : ℕ)
    (s : LoopState) :
    (calibIter trial target tol i s).low =
      if absQ (trial ((s.low + s.high) / 2) - target) ≤ tol then s.low
      else if target < trial ((s.low + s.high) / 2) then (s.low + s.high) / 2
      else s.low := by
  simp only [calibIter]
  split_ifs <;> rfl

theorem calibIter_high (trial : ℚ → ℚ) (target tol : ℚ) (i : ℕ)
    (s : LoopState) :
    (calibIter trial target tol i s).high =
      if absQ (trial ((s.low + s.high) / 2) - target) ≤ tol then s.high
      else if target < trial ((s.low + s.high) / 2) then s.high
      else (s.low + s.high) / 2 := by
  simp only [calibIter]
  split_ifs <;> rfl

/-- Everything the loop does to the history: it appends a block of at most
    n records, numbered consecutively from i + 1, all with non-negative
    error; and when the incoming state is live and every appended record
    misses the tolerance, the whole budget is used and the loop ends not
    done. -/
theorem calibLoop_history (trial : ℚ → ℚ) (target tol : ℚ) :
    ∀ (n i : ℕ) (s : LoopState), ∃ t : List TrialRecord,
      (calibLoop trial target tol n i s).history = s.history ++ t ∧
      t.length ≤ n ∧
      (∀ j (hj : j < t.length),
        (t.get ⟨j, hj⟩).iteration = i + 1 + j ∧ 0 ≤ (t.get ⟨j, hj⟩).error) ∧
      (s.done = false → (∀ r ∈ t, tol < r.error) →
        t.length = n ∧ (calibLoop trial target tol n i s).done = false) ∧
      (s.done = false → 1 ≤ n → 1 ≤ t.length) := by
  intro n
  induction n with
  | zero =>
    intro i s
    refine ⟨[], by simp [calibLoop], Nat.le_refl 0, ?_, ?_, ?_⟩
    · intro j hj; exact absurd hj (Nat.not_lt_zero j)
    · intro hdone _; exact ⟨rfl, hdone⟩
    · intro _ hn; exact absurd hn (by omega)
  | succ n ih =>
    intro i s
    by_cases hd : s.done = true
    · refine ⟨[], ?_, Nat.zero_le _, ?_, ?_, ?_⟩
      · rw [calibLoop_done_eq trial target tol (n + 1) i s hd]; simp
      · intro j hj; exact absurd hj (Nat.not_lt_zero j)
      · intro hdone _; rw [hd] at hdone; exact absurd hdone (by simp)
      · intro hdone _; rw [hd] at hdone; exact absurd hdone (by simp)
    · have hd' : s.done = false := by
        cases h : s.done
        · rfl
        · exact absurd h hd
      have hstep := calibLoop_succ_of_not_done trial target tol n i s hd'
      obtain ⟨t2, ht2hist, ht2len, ht2idx, ht2nc, _⟩ :=
        ih (i + 1) (calibIter trial target tol i s)
      refine ⟨⟨i + 1, (s.low + s.high) / 2,
        absQ (trial ((s.low + s.high) / 2) - target)⟩ :: t2, ?_, ?_, ?_, ?_, ?_⟩
      · rw [hstep, ht2hist, calibIter_history]; simp
      · simpa using Nat.succ_le_succ ht2len
      · intro j hj
        cases j with
        | zero => exact ⟨by simp, absQ_nonneg _⟩
        | succ j =>
          have hj2 : j < t2.length := by simpa using hj
          obtain ⟨h1, h2⟩ := ht2idx j hj2
          constructor
          · show (t2.get ⟨j, hj2⟩).iteration = i + 1 + (j + 1)
            rw [h1]; omega
          · show 0 ≤ (t2.get ⟨j, hj2⟩).error
            exact h2
      · intro _ hall
        have herr : tol < absQ (trial ((s.low + s.high) / 2) - target) :=
          hall _ (List.mem_cons_self _ _)
        have hdone2 : (calibIter trial target tol i s).done = false := by
          rw [calibIter_done, if_neg (not_le.mpr herr)]; exact hd'
        obtain ⟨hlen, hdres⟩ :=
          ht2nc hdone2 (fun r hr => hall r (List.mem_cons_of_mem _ hr))
        refine ⟨by simp [hlen], ?_⟩
        rw [hstep]; exact hdres
      · intro _ _
        simp

/-- Invariant tying best_guess and the Python error variable to the last
    history record: both are exactly what the most recent iteration wrote. -/
def LoopInv (s : LoopState) : Prop :=
  ∃ r : TrialRecord, s.history.getLast? = some r ∧ s.best = r.guess ∧
    s.lastError = some r.error

theorem calibIter_loopInv (trial : ℚ → ℚ) (target tol : ℚ) (i : ℕ)
    (s : LoopState) : LoopInv (calibIter trial target tol i s) := by
  refine ⟨⟨i + 1, (s.low + s.high) / 2,
    absQ (trial ((s.low + s.high) / 2) - target)⟩, ?_, ?_, ?_⟩
  · rw [calibIter_history]
    exact List.getLast?_concat _
  · rw [calibIter_best]
  · rw [calibIter_lastError]

theorem calibLoop_loopInv (trial : ℚ → ℚ) (target tol : ℚ) :
    ∀ (n i : ℕ) (s : LoopState), LoopInv s →
      LoopInv (calibLoop trial target tol n i s) := by
  intro n
  induction n with
  | zero => intro i s h; exact h
  | succ n ih =>
    intro i s h
    by_cases hd : s.done = true
    · rw [calibLoop_done_eq trial target tol (n + 1) i s hd]; exact h
    · have hd' : s.done = false := by
        cases hb : s.done
        · rfl
        · exact absurd hb hd
      rw [calibLoop_succ_of_not_done trial target tol n i s hd']
      exact ih (i + 1) _ (calibIter_loopInv trial target tol i s)

/-- As soon as the loop actually runs at least one iteration, the invariant
    holds of its final state. -/
theorem calibLoop_loopInv_of_run (trial : ℚ → ℚ) (target tol : ℚ)
    (n i : ℕ) (s : LoopState) (hn : 1 ≤ n) (hd : s.done = false) :
    LoopInv (calibLoop trial target tol n i s) := by
  obtain ⟨m, rfl⟩ : ∃ m, n = m + 1 := ⟨n - 1, by omega⟩
  rw [calibLoop_succ_of_not_done trial target tol m i s hd]
  exact calibLoop_loopInv trial target tol m (i + 1) _
    (calibIter_loopInv trial target tol i s)

/-- The bisection interval: it stays inside [0, 1], keeps a positive width,
    and each executed non-converged iteration halves it exactly. -/
theorem calibLoop_bounds (trial : ℚ → ℚ) (target tol : ℚ) :
    ∀ (n i : ℕ) (s : LoopState), 0 ≤ s.low → s.low < s.high → s.high ≤ 1 →
      0 ≤ (calibLoop trial target tol n i s).low ∧
      (calibLoop trial target tol n i s).low <
        (calibLoop trial target tol n i s).high ∧
      (calibLoop trial target tol n i s).high ≤ 1 ∧
      ((calibLoop trial target tol n i s).done = false → s.done = false →
        (calibLoop trial target tol n i s).high -
          (calibLoop trial target tol n i s).low =
          (s.high - s.low) * (1 / 2) ^ n) := by
  intro n
  induction n with
  | zero =>
    intro i s h0 h1 h2
    exact ⟨h0, h1, h2, fun _ _ => by simp [calibLoop]⟩
  | succ n ih =>
    intro i s h0 h1 h2
    by_cases hd : s.done = true
    · rw [calibLoop_done_eq trial target tol (n + 1) i s hd]
      refine ⟨h0, h1, h2, ?_⟩
      intro hcontra _
      rw [hd] at hcontra; exact absurd hcontra (by simp)
    · have hd' : s.done = false := by
        cases hb : s.done
        · rfl
        · exact absurd hb hd
      rw [calibLoop_succ_of_not_done trial target tol n i s hd']
      by_cases htol : absQ (trial ((s.low + s.high) / 2) - target) ≤ tol
      · have hdone2 : (calibIter trial target tol i s).done = true := by
          rw [calibIter_done, if_pos htol]
        rw [calibLoop_done_eq trial target tol n (i + 1) _ hdone2]
        rw [calibIter_low, if_pos htol, calibIter_high, if_pos htol]
        refine ⟨h0, h1, h2, ?_⟩
        intro hcontra _
        rw [hdone2] at hcontra; exact absurd hcontra (by simp)
      · have hdone2 : (calibIter trial target tol i s).done = false := by
          rw [calibIter_done, if_neg htol]; exact hd'
        have hlow := calibIter_low trial target tol i s
        have hhigh := calibIter_high trial target tol i s
        rw [if_neg htol] at hlow hhigh
        by_cases hgt : target < trial ((s.low + s.high) / 2)
        · rw [if_pos hgt] at hlow hhigh
          have hmid0 : 0 ≤ (s.low + s.high) / 2 := by linarith
          have hmidh : (s.low + s.high) / 2 <
              (calibIter trial target tol i s).high := by
            rw [hhigh]; linarith
          obtain ⟨c0, c1, c2, c3⟩ := ih (i + 1) (calibIter trial target tol i s)
            (by rw [hlow]; exact hmid0) (by rw [hlow]; exact hmidh)
            (by rw [hhigh]; exact h2)
          refine ⟨c0, c1, c2, ?_⟩
          intro hres _
          rw [c3 hres hdone2, hhigh, hlow, pow_succ]
          ring
        · rw [if_neg hgt] at hlow hhigh
          have hmidl : (calibIter trial target tol i s).low <
              (s.low + s.high) / 2 := by
            rw [hlow]; linarith
          have hmid1 : (s.low + s.high) / 2 ≤ 1 := by linarith
          obtain ⟨c0, c1, c2, c3⟩ := ih (i + 1) (calibIter trial target tol i s)
            (by rw [hlow]; exact h0) (by rw [hhigh]; exact hmidl)
            (by rw [hhigh]; exact hmid1)
          refine ⟨c0, c1, c2, ?_⟩
          intro hres _
          rw [c3 hres hdone2, hhigh, hlow, pow_succ]
          ring

theorem absQ_of_nonneg (a : ℚ) (h : 0 ≤ a) : absQ a = a := by
  unfold absQ
  rw [if_neg (not_lt.mpr h)]

/-- The Coulomb friction update of one contact step, in isolation: with a
    larger friction coefficient the forward tangential velocity after the
    bounded friction impulse is no larger, and it never becomes negative
    (friction only slows the body, it cannot push it backwards). -/
theorem friction_velocity_rel (m bigN ff f1 f2 v1 v2 : ℚ) (hm : 0 < m)
    (hN : 0 ≤ bigN) (hff : 0 ≤ ff) (hf1 : 0 ≤ f1) (hf12 : f1 ≤ f2)
    (hv2 : 0 ≤ v2) (hv12 : v2 ≤ v1) :
    0 ≤ v2 - min (f2 * ff * bigN) (m * v2) / m ∧
    v2 - min (f2 * ff * bigN) (m * v2) / m ≤
      v1 - min (f1 * ff * bigN) (m * v1) / m := by
  have ha1 : 0 ≤ f1 * ff * bigN := mul_nonneg (mul_nonneg hf1 hff) hN
  have ha12 : f1 * ff * bigN ≤ f2 * ff * bigN :=
    mul_le_mul_of_nonneg_right (mul_le_mul_of_nonneg_right hf12 hff) hN
  constructor
  · rw [sub_nonneg, div_le_iff₀ hm, mul_comm v2 m]
    exact min_le_right _ _
  · rcases le_total (f1 * ff * bigN) (m * v1) with h1 | h1
    · rcases le_total (f2 * ff * bigN) (m * v2) with h2 | h2
      · rw [min_eq_left h1, min_eq_left h2]
        have hdiv : f1 * ff * bigN / m ≤ f2 * ff * bigN / m := by gcongr
        linarith
      · rw [min_eq_left h1, min_eq_right h2,
          mul_div_cancel_left₀ v2 (ne_of_gt hm)]
        have hdiv : f1 * ff * bigN / m ≤ v1 := by
          rw [div_le_iff₀ hm, mul_comm v1 m]
          exact h1
        linarith
    · have h2 : m * v2 ≤ f2 * ff * bigN := by
        have hmv : m * v2 ≤ m * v1 := mul_le_mul_of_nonneg_left hv12 (le_of_lt hm)
        linarith
      rw [min_eq_right h1, min_eq_right h2,
        mul_div_cancel_left₀ v1 (ne_of_gt hm),
        mul_div_cancel_left₀ v2 (ne_of_gt hm)]
      linarith

/-- The coupling between the bodies of two trial worlds that differ only in
    their friction coefficient (the first being the lower-friction world):
    the vertical motion is identical, the configuration is shared, and the
    lower-friction body is at least as fast and at least as far along x. -/
def BodyRel (b1 b2 : Body) : Prop :=
  b1.y = b2.y ∧ b1.vy = b2.vy ∧ b1.mass = b2.mass ∧
  b1.half_height = b2.half_height ∧ 0 < b1.mass ∧
  0 ≤ b2.vx ∧ b2.vx ≤ b1.vx ∧ b2.x ≤ b1.x

/-- One physics step preserves the coupling, for a rightward-moving pair of
    bodies under purely vertical gravity and nonnegative frictions. -/
theorem stepBody_rel (f1 f2 ff ftop : ℚ) (g : ℚ × ℚ) (dt : ℚ)
    (hdt : 0 < dt) (hg1 : g.1 = 0) (hff : 0 ≤ ff) (hf1 : 0 ≤ f1)
    (hf12 : f1 ≤ f2) (b1 b2 : Body) (h : BodyRel b1 b2) :
    BodyRel (stepBody f1 ff ftop g dt b1) (stepBody f2 ff ftop g dt b2) := by
  obtain ⟨x1, y1, vx1, vy1, m1, hh1⟩ := b1
  obtain ⟨x2, y2, vx2, vy2, m2, hh2⟩ := b2
  obtain ⟨hy, hvy, hm, hhh, hm0, hvx0, hvx12, hx⟩ := h
  simp only at hy hvy hm hhh hm0 hvx0 hvx12 hx
  subst hy hvy hm hhh
  have hvx1 : (0 : ℚ) ≤ vx1 := le_trans hvx0 hvx12
  simp only [stepBody, hg1, zero_mul, add_zero]
  by_cases hc : y1 + (vy1 + g.2 * dt) * dt ≤ ftop + hh1
  · rw [if_pos hc, if_pos hc, if_pos hvx1, if_pos hvx0,
      absQ_of_nonneg vx1 hvx1, absQ_of_nonneg vx2 hvx0]
    have hN : 0 ≤ m1 * ((ftop + hh1 - y1) / dt - (vy1 + g.2 * dt)) := by
      apply mul_nonneg (le_of_lt hm0)
      rw [sub_nonneg, le_div_iff₀ hdt]
      linarith
    obtain ⟨hnew0, hnew12⟩ := friction_velocity_rel m1
      (m1 * ((ftop + hh1 - y1) / dt - (vy1 + g.2 * dt))) ff f1 f2 vx1 vx2
      hm0 hN hff hf1 hf12 hvx0 hvx12
    refine ⟨rfl, rfl, rfl, rfl, hm0, hnew0, hnew12, ?_⟩
    have := mul_le_mul_of_nonneg_right hnew12 (le_of_lt hdt)
    linarith
  · rw [if_neg hc, if_neg hc]
    refine ⟨rfl, rfl, rfl, rfl, hm0, hvx0, hvx12, ?_⟩
    show x2 + vx2 * dt ≤ x1 + vx1 * dt
    have := mul_le_mul_of_nonneg_right hvx12 (le_of_lt hdt)
    linarith

/-- The coupling between two whole trial worlds: identical configuration
    except that the first world's friction is the smaller one, and their
    bodies satisfy BodyRel. -/
def SimRel (w1 w2 : Simulator) : Prop :=
  w1.gravity = w2.gravity ∧ w1.gravity.1 = 0 ∧
  w1.floor_friction = w2.floor_friction ∧ 0 ≤ w1.floor_friction ∧
  w1.floor_top = w2.floor_top ∧ 0 ≤ w1.friction ∧
  w1.friction ≤ w2.friction ∧
  ∃ b1 b2, w1.object_body = some b1 ∧ w2.object_body = some b2 ∧
    BodyRel b1 b2

theorem step_simRel (dt : ℚ) (hdt : 0 < dt) (w1 w2 : Simulator)
    (h : SimRel w1 w2) : SimRel (w1.step dt) (w2.step dt) := by
  obtain ⟨hg, hg1, hffr, hffr0, hft, hf0, hf12, b1, b2, hb1, hb2, hrel⟩ := h
  have hs1 : w1.step dt = { w1 with object_body := some (stepBody w1.friction w1.floor_friction w1.floor_top w1.gravity dt b1) } := by
    simp only [Simulator.step, hb1]
  have hs2 : w2.step dt = { w2 with object_body := some (stepBody w2.friction w2.floor_friction w2.floor_top w2.gravity dt b2) } := by
    simp only [Simulator.step, hb2]
  rw [hs1, hs2]
  refine ⟨hg, hg1, hffr, hffr0, hft, hf0, hf12, _, _, rfl, rfl, ?_⟩
  rw [← hffr, ← hft, ← hg]
  exact stepBody_rel w1.friction w2.friction w1.floor_friction w1.floor_top
    w1.gravity dt hdt hg1 hffr0 hf0 hf12 b1 b2 hrel

theorem iterate_step_simRel (k : ℕ) (w1 w2 : Simulator) (h : SimRel w1 w2) :
    SimRel ((fun w => Simulator.step w (1 / 60))^[k] w1)
      ((fun w => Simulator.step w (1 / 60))^[k] w2) := by
  induction k generalizing w1 w2 with
  | zero => simpa using h
  | succ k ih =>
    rw [Function.iterate_succ_apply, Function.iterate_succ_apply]
    exact ih _ _ (step_simRel (1 / 60) (by norm_num) w1 w2 h)

/-- The engine returned by calibrate carries exactly the loop's final
    history, whichever way the call ends. -/
theorem calibrate_history_eq (e : CalibrationEngine) (target : ℚ)
    (maxIter : ℕ) (tol : ℚ) :
    (e.calibrate target maxIter tol).1.calibration_history =
      (calibLoop e.run_trial target tol maxIter 0
        (initState e.calibration_history)).history := by
  unfold CalibrationEngine.calibrate
  cases hl : (calibLoop e.run_trial target tol maxIter 0
      (initState e.calibration_history)).lastError with
  | none => simp only [hl]
  | some v => simp only [hl]

/-- The outcome returned by calibrate, as a function of the loop's final
    state: a NameError when the error variable was never assigned,
    best_guess otherwise. -/
theorem calibrate_result_eq (e : CalibrationEngine) (target : ℚ)
    (maxIter : ℕ) (tol : ℚ) :
    (e.calibrate target maxIter tol).2 =
      match (calibLoop e.run_trial target tol maxIter 0
        (initState e.calibration_history)).lastError with
      | none => Except.error ()
      | some _ => Except.ok (calibLoop e.run_trial target tol maxIter 0
          (initState e.calibration_history)).best := by
  unfold CalibrationEngine.calibrate
  cases hl : (calibLoop e.run_trial target tol maxIter 0
      (initState e.calibration_history)).lastError with
  | none => simp only [hl]
  | some v => simp only [hl]

/-- C1: for every call to calibrate, every executed iteration whose error
    exceeds the tolerance updates the search interval exactly as the spec
    says: when the observed x strictly overshoots the target, low_bound
    becomes the guess and high_bound is untouched; otherwise, including the
    exact tie, high_bound becomes the guess and low_bound is untouched; no
    other bound update happens. -/
theorem calibrate_iteration_bound_update (trial : ℚ → ℚ) (target tol : ℚ)
    (i : ℕ) (s : LoopState)
    (h : tol < absQ (trial ((s.low + s.high) / 2) - target)) :
    (target < trial ((s.low + s.high) / 2) →
      (calibIter trial target tol i s).low = (s.low + s.high) / 2 ∧
      (calibIter trial target tol i s).high = s.high) ∧
    (trial ((s.low + s.high) / 2) ≤ target →
      (calibIter trial target tol i s).high = (s.low + s.high) / 2 ∧
      (calibIter trial target tol i s).low = s.low) := by
  have hlow := calibIter_low trial target tol i s
  have hhigh := calibIter_high trial target tol i s
  rw [if_neg (not_le.mpr h)] at hlow hhigh
  constructor
  · intro hgt
    rw [hlow, hhigh, if_pos hgt, if_pos hgt]
    exact ⟨rfl, rfl⟩
  · intro hle
    have hn : ¬target < trial ((s.low + s.high) / 2) := not_lt.mpr hle
    rw [hlow, hhigh, if_neg hn, if_neg hn]
    exact ⟨rfl, rfl⟩

theorem calibrate_iteration_bound_update_witness :
    (calibIter (CalibrationEngine.init 0 (10000, 0)).run_trial 5 1 0
      (initState [])).high = (0 + 1) / 2 ∧
    (calibIter (CalibrationEngine.init 0 (10000, 0)).run_trial 5 1 0
      (initState [])).low = 0 :=
  (calibrate_iteration_bound_update
    (CalibrationEngine.init 0 (10000, 0)).run_trial 5 1 0 (initState [])
    (by norm_num [CalibrationEngine.run_trial, CalibrationEngine.init,
      initState, Simulator.init, Simulator.add_dynamic_box,
      Simulator.apply_impulse, Simulator.get_object_state, absQ])).2
    (by norm_num [CalibrationEngine.run_trial, CalibrationEngine.init,
      initState, Simulator.init, Simulator.add_dynamic_box,
      Simulator.apply_impulse, Simulator.get_object_state])

/-- C3: when max_iterations is at least 1 and every record this call added
    to the history misses the tolerance, calibrate still returns normally
    (no exception), its value is the guess of the final iteration, and all
    max_iterations iterations were executed; budget exhaustion is never a
    hard failure. -/
theorem calibrate_exhaustion_returns_last_guess (e : CalibrationEngine)
    (target tol : ℚ) (maxIter : ℕ) (hmax : 1 ≤ maxIter)
    (hnc : ∀ r ∈ (e.calibrate target maxIter tol).1.calibration_history.drop
      e.calibration_history.length, tol < r.error) :
    ∃ r : TrialRecord,
      ((e.calibrate target maxIter tol).1.calibration_history.drop
        e.calibration_history.length).getLast? = some r ∧
      (e.calibrate target maxIter tol).2 = Except.ok r.guess ∧
      ((e.calibrate target maxIter tol).1.calibration_history.drop
        e.calibration_history.length).length = maxIter := by
  obtain ⟨t, ht, _, _, hnc2, _⟩ := calibLoop_history e.run_trial target tol
    maxIter 0 (initState e.calibration_history)
  have hh := calibrate_history_eq e target maxIter tol
  have hdrop : (e.calibrate target maxIter tol).1.calibration_history.drop
      e.calibration_history.length = t := by
    rw [hh, ht]
    exact List.drop_left _ _
  rw [hdrop] at hnc ⊢
  obtain ⟨hlen, _⟩ := hnc2 rfl hnc
  have htne : t ≠ [] := by
    apply List.ne_nil_of_length_pos
    omega
  obtain ⟨r, hlast, hbest, hlerr⟩ := calibLoop_loopInv_of_run e.run_trial
    target tol maxIter 0 (initState e.calibration_history) hmax rfl
  refine ⟨r, ?_, ?_, hlen⟩
  · rw [ht, List.getLast?_append_of_ne_nil _ htne] at hlast
    exact hlast
  · rw [calibrate_result_eq, hlerr, hbest]

theorem calibrate_exhaustion_returns_last_guess_witness :
    ∃ r : TrialRecord,
      (((CalibrationEngine.init 0 (10000, 0)).calibrate 100 2
        1).1.calibration_history.drop
        (CalibrationEngine.init 0 (10000, 0)).calibration_history.length).getLast?
        = some r ∧
      ((CalibrationEngine.init 0 (10000, 0)).calibrate 100 2 1).2 =
        Except.ok r.guess ∧
      (((CalibrationEngine.init 0 (10000, 0)).calibrate 100 2
        1).1.calibration_history.drop
        (CalibrationEngine.init 0 (10000, 0)).calibration_history.length).length
        = 2 :=
  calibrate_exhaustion_returns_last_guess (CalibrationEngine.init 0 (10000, 0))
    100 1 2 (by norm_num)
    (by norm_num [CalibrationEngine.calibrate, CalibrationEngine.init,
      calibLoop, calibIter, initState, CalibrationEngine.run_trial,
      Simulator.init, Simulator.add_dynamic_box, Simulator.apply_impulse,
      Simulator.get_object_state, absQ])

/-- C6: calling calibrate with max_iterations = 0 runs no trial and appends
    no history record (the engine comes back unchanged, whatever its trial
    configuration), and the caller gets an error (the source's trailing
    check reads the never-assigned error variable, raising NameError)
    rather than any value resembling a friction guess. -/
theorem calibrate_zero_iterations_signals_error (e : CalibrationEngine)
    (target tol : ℚ) :
    e.calibrate target 0 tol = (e, Except.error ()) := rfl

/-- C7: on a freshly constructed engine, the history produced by one
    calibrate call has at most max_iterations entries, the k-th entry (0
    based) carries iteration number k + 1 — so iteration numbers are
    strictly increasing from 1 — and every recorded error is
    non-negative. -/
theorem calibrate_history_consistency (steps : ℕ) (imp : ℚ × ℚ)
    (target tol : ℚ) (maxIter : ℕ) :
    (((CalibrationEngine.init steps imp).calibrate target maxIter
      tol).1.calibration_history).length ≤ maxIter ∧
    ∀ k r, (((CalibrationEngine.init steps imp).calibrate target maxIter
        tol).1.calibration_history).get? k = some r →
      r.iteration = k + 1 ∧ 0 ≤ r.error := by
  obtain ⟨t, ht, htlen, htidx, _, _⟩ := calibLoop_history
    (CalibrationEngine.init steps imp).run_trial target tol maxIter 0
    (initState (CalibrationEngine.init steps imp).calibration_history)
  have hh : ((CalibrationEngine.init steps imp).calibrate target maxIter
      tol).1.calibration_history = t := by
    rw [calibrate_history_eq, ht]
    rfl
  rw [hh]
  refine ⟨htlen, ?_⟩
  intro k r hr
  obtain ⟨hk, hget⟩ := List.get?_eq_some.mp hr
  obtain ⟨h1, h2⟩ := htidx k hk
  rw [hget] at h1 h2
  exact ⟨by omega, h2⟩

theorem calibrate_history_consistency_witness :
    (((CalibrationEngine.init 0 (10000, 0)).calibrate 100 2
      1).1.calibration_history).length ≤ 2 ∧
    ∀ r, (((CalibrationEngine.init 0 (10000, 0)).calibrate 100 2
        1).1.calibration_history).get? 0 = some r →
      r.iteration = 0 + 1 ∧ 0 ≤ r.error :=
  ⟨(calibrate_history_consistency 0 (10000, 0) 100 1 2).1,
    fun r hr => (calibrate_history_consistency 0 (10000, 0) 100 1 2).2 0 r hr⟩

/-- C8: throughout every execution of the calibrate loop started from the
    initial bounds, the interval satisfies 0 <= low < high <= 1, the next
    guess is exactly the midpoint of the current bounds and lies strictly
    between 0 and 1, and after k executed iterations none of which met the
    tolerance the interval width is exactly (1/2)^k. -/
theorem calibrate_bisection_invariant (trial : ℚ → ℚ) (target tol : ℚ)
    (hist : List TrialRecord) (k : ℕ) :
    0 ≤ (calibLoop trial target tol k 0 (initState hist)).low ∧
    (calibLoop trial target tol k 0 (initState hist)).low <
      (calibLoop trial target tol k 0 (initState hist)).high ∧
    (calibLoop trial target tol k 0 (initState hist)).high ≤ 1 ∧
    (calibIter trial target tol k
        (calibLoop trial target tol k 0 (initState hist))).best =
      ((calibLoop trial target tol k 0 (initState hist)).low +
        (calibLoop trial target tol k 0 (initState hist)).high) / 2 ∧
    0 < ((calibLoop trial target tol k 0 (initState hist)).low +
      (calibLoop trial target tol k 0 (initState hist)).high) / 2 ∧
    ((calibLoop trial target tol k 0 (initState hist)).low +
      (calibLoop trial target tol k 0 (initState hist)).high) / 2 < 1 ∧
    ((calibLoop trial target tol k 0 (initState hist)).done = false →
      (calibLoop trial target tol k 0 (initState hist)).high -
        (calibLoop trial target tol k 0 (initState hist)).low = (1 / 2) ^ k) := by
  obtain ⟨c0, c1, c2, c3⟩ := calibLoop_bounds trial target tol k 0
    (initState hist) (le_refl 0) (by norm_num [initState]) (le_refl 1)
  refine ⟨c0, c1, c2, calibIter_best trial target tol k _, by linarith,
    by linarith, ?_⟩
  intro hdone
  rw [c3 hdone rfl]
  show ((initState hist).high - (initState hist).low) * (1 / 2) ^ k = (1 / 2) ^ k
  norm_num [initState]

theorem calibrate_bisection_invariant_witness :
    ((calibLoop (CalibrationEngine.init 0 (10000, 0)).run_trial 100 1 2 0
      (initState [])).done = false) ∧
    (calibLoop (CalibrationEngine.init 0 (10000, 0)).run_trial 100 1 2 0
        (initState [])).high -
      (calibLoop (CalibrationEngine.init 0 (10000, 0)).run_trial 100 1 2 0
        (initState [])).low = (1 / 2) ^ 2 :=
  ⟨by norm_num [calibLoop, calibIter, initState, CalibrationEngine.run_trial,
      CalibrationEngine.init, Simulator.init, Simulator.add_dynamic_box,
      Simulator.apply_impulse, Simulator.get_object_state, absQ],
    (calibrate_bisection_invariant
      (CalibrationEngine.init 0 (10000, 0)).run_trial 100 1 [] 2).2.2.2.2.2.2
      (by norm_num [calibLoop, calibIter, initState,
        CalibrationEngine.run_trial, CalibrationEngine.init, Simulator.init,
        Simulator.add_dynamic_box, Simulator.apply_impulse,
        Simulator.get_object_state, absQ])⟩

/-- C10: the calibration history accumulates across calls: the constructor
    initializes it to empty, and each calibrate call only appends to the
    existing record list, so after a second call on the same engine the
    first call's records are still an unchanged prefix. -/
theorem calibration_history_accumulates (steps : ℕ) (imp : ℚ × ℚ)
    (e : CalibrationEngine) (target1 target2 tol1 tol2 : ℚ)
    (m1 m2 : ℕ) :
    (CalibrationEngine.init steps imp).calibration_history = [] ∧
    (∃ t1, ((e.calibrate target1 m1 tol1).1).calibration_history =
      e.calibration_history ++ t1) ∧
    (∃ t2, (((e.calibrate target1 m1 tol1).1).calibrate target2 m2
        tol2).1.calibration_history =
      ((e.calibrate target1 m1 tol1).1).calibration_history ++ t2) := by
  refine ⟨rfl, ?_, ?_⟩
  · obtain ⟨t1, ht1, _⟩ := calibLoop_history e.run_trial target1 tol1 m1 0
      (initState e.calibration_history)
    exact ⟨t1, by rw [calibrate_history_eq]; exact ht1⟩
  · obtain ⟨t2, ht2, _⟩ := calibLoop_history
      ((e.calibrate target1 m1 tol1).1).run_trial target2 tol2 m2 0
      (initState ((e.calibrate target1 m1 tol1).1).calibration_history)
    exact ⟨t2, by rw [calibrate_history_eq]; exact ht2⟩

/-- C5 counterexample: calibrate with simulation_steps = 0 and
    tolerance = -1 (both invalid per the claim) is not rejected: the trial
    runs, a history record is appended, and the call returns a guess
    normally, so no configuration error is raised before trials run. -/
theorem calibrate_no_validation_counterexample :
    ((CalibrationEngine.init 0 (10000, 0)).calibrate 5 1 (-1)).2 =
      Except.ok (1 / 2) ∧
    ((CalibrationEngine.init 0 (10000, 0)).calibrate 5 1
      (-1)).1.calibration_history ≠ [] := by
  constructor
  · norm_num [CalibrationEngine.calibrate, CalibrationEngine.init, calibLoop,
      calibIter, initState, CalibrationEngine.run_trial, Simulator.init,
      Simulator.add_dynamic_box, Simulator.apply_impulse,
      Simulator.get_object_state, absQ]
  · norm_num [CalibrationEngine.calibrate, CalibrationEngine.init, calibLoop,
      calibIter, initState, CalibrationEngine.run_trial, Simulator.init,
      Simulator.add_dynamic_box, Simulator.apply_impulse,
      Simulator.get_object_state, absQ]

/-- C5 amended: calibrate performs no configuration validation.  Whenever
    max_iterations is at least 1 — even with tolerance <= 0 or
    simulation_steps = 0 — trials run, at least one history record is
    appended, and a guess is returned normally.  Only max_iterations < 1
    produces an error: the call then runs no trial, appends nothing, and
    raises (the trailing tolerance check reads an unassigned variable)
    after the empty loop rather than rejecting the configuration before
    it. -/
theorem calibrate_accepts_any_configuration (e : CalibrationEngine)
    (target tol : ℚ) (maxIter : ℕ) :
    (1 ≤ maxIter → ∃ g t, (e.calibrate target maxIter tol).2 = Except.ok g ∧
      (e.calibrate target maxIter tol).1.calibration_history =
        e.calibration_history ++ t ∧ 1 ≤ t.length) ∧
    e.calibrate target 0 tol = (e, Except.error ()) := by
  refine ⟨?_, rfl⟩
  intro hmax
  obtain ⟨r, _, hbest, hlerr⟩ := calibLoop_loopInv_of_run e.run_trial target
    tol maxIter 0 (initState e.calibration_history) hmax rfl
  obtain ⟨t, ht, _, _, _, hne⟩ := calibLoop_history e.run_trial target tol
    maxIter 0 (initState e.calibration_history)
  refine ⟨r.guess, t, ?_, ?_, hne rfl hmax⟩
  · rw [calibrate_result_eq, hlerr, hbest]
  · rw [calibrate_history_eq]
    exact ht

theorem calibrate_accepts_any_configuration_witness :
    ∃ g t, ((CalibrationEngine.init 0 (10000, 0)).calibrate 7 1 (-2)).2 =
      Except.ok g ∧
    ((CalibrationEngine.init 0 (10000, 0)).calibrate 7 1
        (-2)).1.calibration_history =
      (CalibrationEngine.init 0 (10000, 0)).calibration_history ++ t ∧
    1 ≤ t.length :=
  (calibrate_accepts_any_configuration (CalibrationEngine.init 0 (10000, 0))
    7 (-2) 1).1 (by norm_num)

/-- C9: a freshly constructed World with no body returns none from
    get_object_state instead of crashing, and apply_impulse on it is a
    no-op returning the world unchanged; once a body has been added,
    get_object_state reports exactly its position (get_object_state is a
    pure read, so no state is mutated). -/
theorem world_no_body_safety (f : ℚ) (g imp pos size : ℚ × ℚ) (mass : ℚ) :
    (Simulator.init f g).get_object_state = none ∧
    (Simulator.init f g).apply_impulse imp = Simulator.init f g ∧
    ((Simulator.init f g).add_dynamic_box pos size mass).get_object_state =
      some pos :=
  ⟨rfl, rfl, rfl⟩

/-- Iterating the physics step never loses the tracked body and never
    changes the world's friction parameter. -/
theorem iterate_step_preserves (k : ℕ) (w : Simulator) (b0 : Body)
    (hb : w.object_body = some b0) :
    ((fun u => Simulator.step u (1 / 60))^[k] w).friction = w.friction ∧
    ∃ b, ((fun u => Simulator.step u (1 / 60))^[k] w).object_body = some b := by
  induction k generalizing w b0 with
  | zero => exact ⟨rfl, b0, hb⟩
  | succ k ih =>
    rw [Function.iterate_succ_apply]
    have hs : w.step (1 / 60) = { w with object_body := some (stepBody w.friction w.floor_friction w.floor_top w.gravity (1 / 60) b0) } := by
      simp only [Simulator.step, hb]
    obtain ⟨hf, b, hbb⟩ := ih (w.step (1 / 60))
      (stepBody w.friction w.floor_friction w.floor_top w.gravity (1 / 60) b0)
      (by rw [hs])
    refine ⟨?_, b, hbb⟩
    rw [hf, hs]

/-- C4: _run_trial builds a brand-new Simulator whose friction is exactly
    the guess (still in place after all steps), with exactly one dynamic
    body at the canonical default position, size, and mass; the configured
    impulse is applied once before the simulation_steps fixed-dt steps (as
    the definition of run_trial spells out), and the returned value is
    precisely the body's final x coordinate, discarding y. -/
theorem run_trial_returns_final_body_x (e : CalibrationEngine) (f : ℚ) :
    ((fun u => Simulator.step u (1 / 60))^[e.simulation_steps]
      (((Simulator.init f (0, -900)).add_dynamic_box (0, 50) (50, 50)
        10).apply_impulse e.impulse)).friction = f ∧
    ∃ b : Body,
      ((fun u => Simulator.step u (1 / 60))^[e.simulation_steps]
        (((Simulator.init f (0, -900)).add_dynamic_box (0, 50) (50, 50)
          10).apply_impulse e.impulse)).object_body = some b ∧
      ((fun u => Simulator.step u (1 / 60))^[e.simulation_steps]
        (((Simulator.init f (0, -900)).add_dynamic_box (0, 50) (50, 50)
          10).apply_impulse e.impulse)).get_object_state = some (b.x, b.y) ∧
      e.run_trial f = b.x := by
  have hb0 : (((Simulator.init f (0, -900)).add_dynamic_box (0, 50) (50, 50)
      10).apply_impulse e.impulse).object_body = some
      { x := 0, y := 50, vx := 0 + e.impulse.1 / 10,
        vy := 0 + e.impulse.2 / 10, mass := 10, half_height := 50 / 2 } := rfl
  obtain ⟨hf, b, hbb⟩ := iterate_step_preserves e.simulation_steps _ _ hb0
  have hget : ((fun u => Simulator.step u (1 / 60))^[e.simulation_steps]
      (((Simulator.init f (0, -900)).add_dynamic_box (0, 50) (50, 50)
        10).apply_impulse e.impulse)).get_object_state = some (b.x, b.y) := by
    simp only [Simulator.get_object_state, hbb]
  refine ⟨hf, b, hbb, hget, ?_⟩
  simp only [CalibrationEngine.run_trial]
  rw [hget]

/-- C2: spec-modelled physics monotonicity: for a fixed step count and a
    fixed impulse with non-negative x component (the repository always
    pushes the box rightwards), the final displacement returned by
    run_trial is monotonically non-increasing in the friction coefficient
    over [0, 1]. -/
theorem run_trial_monotone_nonincreasing (e : CalibrationEngine)
    (himp : 0 ≤ e.impulse.1) (f1 f2 : ℚ) (hf1 : 0 ≤ f1) (hf12 : f1 < f2)
    (hf2 : f2 ≤ 1) : e.run_trial f2 ≤ e.run_trial f1 := by
  have h0 : SimRel
      (((Simulator.init f1 (0, -900)).add_dynamic_box (0, 50) (50, 50)
        10).apply_impulse e.impulse)
      (((Simulator.init f2 (0, -900)).add_dynamic_box (0, 50) (50, 50)
        10).apply_impulse e.impulse) := by
    refine ⟨rfl, rfl, rfl, by norm_num [Simulator.init,
      Simulator.add_dynamic_box, Simulator.apply_impulse], rfl, hf1,
      le_of_lt hf12, _, _, rfl, rfl, ?_⟩
    refine ⟨rfl, rfl, rfl, rfl, by norm_num, ?_, le_refl _, le_refl _⟩
    show (0 : ℚ) ≤ 0 + e.impulse.1 / 10
    have := div_nonneg himp (by norm_num : (0 : ℚ) ≤ 10)
    linarith
  have hrel := iterate_step_simRel e.simulation_steps _ _ h0
  obtain ⟨_, _, _, _, _, _, _, bf1, bf2, hbf1, hbf2, hb⟩ := hrel
  have hx : bf2.x ≤ bf1.x := hb.2.2.2.2.2.2.2
  have hget1 : ((fun w => Simulator.step w (1 / 60))^[e.simulation_steps]
      (((Simulator.init f1 (0, -900)).add_dynamic_box (0, 50) (50, 50)
        10).apply_impulse e.impulse)).get_object_state = some (bf1.x, bf1.y) := by
    simp only [Simulator.get_object_state, hbf1]
  have hget2 : ((fun w => Simulator.step w (1 / 60))^[e.simulation_steps]
      (((Simulator.init f2 (0, -900)).add_dynamic_box (0, 50) (50, 50)
        10).apply_impulse e.impulse)).get_object_state = some (bf2.x, bf2.y) := by
    simp only [Simulator.get_object_state, hbf2]
  simp only [CalibrationEngine.run_trial]
  rw [hget1, hget2]
  exact hx

theorem run_trial_monotone_nonincreasing_witness :
    (CalibrationEngine.init 1 (10000, 0)).run_trial (3 / 4) ≤
      (CalibrationEngine.init 1 (10000, 0)).run_trial (1 / 4) :=
  run_trial_monotone_nonincreasing (CalibrationEngine.init 1 (10000, 0))
    (by norm_num [CalibrationEngine.init]) (1 / 4) (3 / 4) (by norm_num)
    (by norm_num) (by norm_num)
